import Mathlib

/-
Verification of the knee-osteoarthritis severity grading service
(`src/app.py`): a Flask app that, at startup, downloads a weights file if
absent and loads a Keras model (architecture JSON plus weights), and per
request decodes an uploaded image, resizes it to 224 by 224 RGB, adds a
batch dimension, runs the model, and returns the argmax grade with its
description and the probability vector.

The embedding is shallow: the filesystem and the environment variable are a
`World`; the single network transfer is a `Network` oracle (its chunk list
and where, if anywhere, it fails); the opaque Keras artifact is a
`KerasModel` flag for whether `load_weights` succeeded, with its
input-output behaviour a parameter `infer` of the request handler; Python
exceptions are `Option StartupError` outcomes and `Except` values; pixel
values (uint8 widened to float32, exactly representable) are integers, and
the probability vector entries are rationals standing in for the finite
float32 values, on which comparison is exact.
-/

namespace ArthritisApp

/-- Bytes of one chunk of the streamed weights transfer (`iter_content`). -/
abbrev Chunk := List Nat

/-- `ARCHITECTURE_FILE` from app.py line 17. -/
def ARCHITECTURE_FILE : String := "knee_osteoarthritis_architecture.json"

/-- `MODEL_WEIGHTS_PATH` from app.py line 18. -/
def MODEL_WEIGHTS_PATH : String := "knee_osteoarthritis_weights.weights.h5"

/-- `KL_GRADE_MAP` (app.py lines 19-25): the static grade enumeration, a
finite map from class index to description. `none` models a key that is
absent from the Python dict. -/
def KL_GRADE_MAP : Nat → Option String
  | 0 => some "Grade 0: Normal (No Osteoarthritis)"
  | 1 => some "Grade 1: Doubtful (Possible Osteophyte Lip)"
  | 2 => some "Grade 2: Minimal (Definite Osteophytes, Possible Joint Space Narrowing)"
  | 3 => some "Grade 3: Moderate (Moderate Osteophytes, Definite Joint Space Narrowing)"
  | 4 => some "Grade 4: Severe (Large Osteophytes, Severe Joint Space Narrowing, Sclerosis)"
  | _ => none

/-- The parts of the process environment the startup code reads and writes:
the content of `MODEL_WEIGHTS_PATH` on the local filesystem (`none` when
`os.path.exists` is false), recorded as the list of chunks written, and the
`WEIGHTS_DOWNLOAD_URL` environment variable. -/
structure World where
  weightsFile : Option (List Chunk)
  weightsUrl : Option String
  deriving DecidableEq

/-- Behaviour of the one network transfer (`requests.get(url, stream=True)`):
the complete remote content as `iter_content` chunks; `failAfter = some k`
means a `RequestException` is raised after `k` chunks were delivered and
written, `none` means the full transfer succeeds; `httpOk = false` means
`requests.get` or `raise_for_status` raises before the local file is opened. -/
structure Network where
  chunks : List Chunk
  failAfter : Option Nat
  httpOk : Bool
  deriving DecidableEq

/-- The exceptions the startup code can raise. -/
inductive StartupError where
  | envError
  | requestError
  | archError
  | weightsError
  deriving DecidableEq

/-- Result of `download_weights_if_not_present`: the filesystem and
environment afterwards, whether a network request was issued, and the
exception raised if any (`none` means the function returned normally). -/
structure DownloadResult where
  world : World
  networkRequested : Bool
  outcome : Option StartupError
  deriving DecidableEq

/-- `download_weights_if_not_present` (app.py lines 76-102). If the weights
file exists the function returns at once; otherwise a missing URL raises
`EnvironmentError`; otherwise the transfer is streamed chunk by chunk into
the file opened for writing, and a failure partway leaves the chunks
received so far written (`chunks.take k`) while re-raising the exception. -/
def download_weights_if_not_present (w : World) (net : Network) : DownloadResult :=
  match w.weightsFile with
  | some _ => ⟨w, false, none⟩
  | none =>
    match w.weightsUrl with
    | none => ⟨w, false, some .envError⟩
    | some _ =>
      if net.httpOk then
        match net.failAfter with
        | some k => ⟨⟨some (net.chunks.take k), w.weightsUrl⟩, true, some .requestError⟩
        | none => ⟨⟨some net.chunks, w.weightsUrl⟩, true, none⟩
      else
        ⟨w, true, some .requestError⟩

/-- The opaque model artifact held in the global `MODEL` once
`model_from_json` has produced it. `weightsLoaded` records whether
`MODEL.load_weights` completed; the artifact's input-output behaviour is
opaque and is a parameter of the request handler. -/
structure KerasModel where
  weightsLoaded : Bool
  deriving DecidableEq

/-- Outcomes of the two fallible steps of `load_model_from_files`: whether
`model_from_json` succeeds and whether `MODEL.load_weights` succeeds. -/
structure LoadBehavior where
  archOk : Bool
  weightsOk : Bool
  deriving DecidableEq

/-- Result of `load_model_from_files`: the global `MODEL` afterwards and the
exception re-raised if any. -/
structure LoadResult where
  model : Option KerasModel
  outcome : Option StartupError
  deriving DecidableEq

/-- `load_model_from_files` (app.py lines 43-73). If `model_from_json`
raises, `MODEL` keeps its previous value (`prev`, `None` at startup) and the
exception is re-raised. If it succeeds, **`MODEL` is assigned the
architecture-only model before weights are attached** (line 56); a failing
`MODEL.load_weights` then re-raises but leaves `MODEL` set to that
weightless model. -/
def load_model_from_files (prev : Option KerasModel) (lb : LoadBehavior) : LoadResult :=
  if lb.archOk then
    if lb.weightsOk then ⟨some ⟨true⟩, none⟩
    else ⟨some ⟨false⟩, some .weightsError⟩
  else ⟨prev, some .archError⟩

/-- State after the module-level startup block (app.py lines 106-114): the
filesystem and the global `MODEL`. -/
structure StartupResult where
  world : World
  model : Option KerasModel
  deriving DecidableEq

/-- The module-level startup block (app.py lines 106-114): run
`download_weights_if_not_present` then `load_model_from_files`; any
exception is caught by the `except` clause whose body is `pass`, so the
process keeps whatever `MODEL` ended up holding and continues to serve. -/
def startup (w : World) (net : Network) (lb : LoadBehavior) : StartupResult :=
  let d := download_weights_if_not_present w net
  match d.outcome with
  | some _ => ⟨d.world, none⟩
  | none =>
    let l := load_model_from_files none lb
    ⟨d.world, l.model⟩

/-- One pixel: its list of channel values (length 1 for mode L, 3 for RGB,
4 for RGBA, and so on). Values are uint8 samples widened to float32 by
`np.array(img, dtype=float32)`, exactly representable, so kept as integers. -/
abbrev Pixel := List Int

/-- A decoded PIL image: its grid of pixels, rows of columns. -/
structure Img where
  pixels : List (List Pixel)
  deriving DecidableEq

/-- A rank-3 array as produced by `np.array` on an RGB image: rows, columns,
channels. -/
abbrev Tensor3 := List (List Pixel)

/-- A rank-4 array as produced by `np.expand_dims(arr, axis=0)`: batch of
rank-3 arrays. -/
abbrev Tensor4 := List Tensor3

/-- Channel conversion of one pixel under `convert` to mode RGB: grayscale
replicates the luminance, an alpha channel is dropped, RGB is kept. Every
result has exactly three channels. -/
def toRGBPixel (p : Pixel) : Pixel :=
  match p with
  | [] => [0, 0, 0]
  | [l] => [l, l, l]
  | [l, _] => [l, l, l]
  | r :: g :: b :: _ => [r, g, b]

/-- `Image.open(io.BytesIO(img_data)).convert(RGB)` (app.py line 146), the
conversion half: force a three-channel representation of every pixel. -/
def convertRGB (img : Img) : Img :=
  ⟨img.pixels.map (fun row => row.map toRGBPixel)⟩

/-- `img.resize((224, 224))` (app.py line 149), modelled with nearest
neighbour sampling: the output grid has exactly `h` rows of `w` pixels each,
sampled from the source grid (the resampling kernel PIL applies changes
pixel values only, never the output shape, which is all the claims use). -/
def resizeImg (img : Img) (w h : Nat) : Img :=
  ⟨(List.range h).map (fun i =>
    let srcRow := img.pixels.getD (i * img.pixels.length / h) []
    (List.range w).map (fun j => srcRow.getD (j * srcRow.length / w) [0, 0, 0]))⟩

/-- `np.array(img, dtype=float32)` (app.py line 150): the pixel grid of an
image as a rank-3 array. -/
def imgToArray (img : Img) : Tensor3 := img.pixels

/-- `np.expand_dims(img_array, axis=0)` (app.py line 151): insert a leading
batch dimension of size 1. -/
def expandDims (t : Tensor3) : Tensor4 := [t]

/-- The whole preprocessing pipeline of `predict` (app.py lines 146-151):
convert to RGB, resize to 224 by 224, convert to an array, add the batch
dimension. -/
def preprocess (img : Img) : Tensor4 :=
  expandDims (imgToArray (resizeImg (convertRGB img) 224 224))

/-- `Bool` test that a rank-4 array has exactly the rectangular shape
`(n, h, w, c)`, every row and every pixel included. -/
def tensorHasShape (t : Tensor4) (n h w c : Nat) : Bool :=
  t.length == n &&
    t.all (fun b => b.length == h &&
      b.all (fun row => row.length == w &&
        row.all (fun px => px.length == c)))

/-- The maximum entry of a list of rationals (`np.max`); 0 on the empty
list, which `predict` never queries. -/
def listMax : List ℚ → ℚ
  | [] => 0
  | [x] => x
  | x :: y :: t => max x (listMax (y :: t))

/-- `np.argmax` on a vector: the index of the first occurrence of the
maximum entry (0 on the empty list, on which NumPy raises instead; `predict`
only ever calls this on a nonempty vector). -/
def argmax : List ℚ → Nat
  | [] => 0
  | [_] => 0
  | x :: y :: t => if listMax (y :: t) ≤ x then 0 else argmax (y :: t) + 1

/-- `Bool` test that `j` is an index of a maximum entry of `l`: in range,
and no entry exceeds `l[j]`. -/
def isArgmaxIndex (l : List ℚ) (j : Nat) : Bool :=
  decide (j < l.length) && l.all (fun v => decide (v ≤ l.getD j 0))

/-- The uploaded file under the key `file` of `request.files`: its client
filename and its content bytes. -/
structure UploadedFile where
  filename : String
  content : List Nat
  deriving DecidableEq

/-- A POST /predict request body: the `file` entry of `request.files`, or
`none` when the multipart body has no such field. -/
structure Request where
  file : Option UploadedFile
  deriving DecidableEq

/-- The per-request behaviour of the two opaque library calls `predict`
makes: `decode` is `Image.open` on the uploaded bytes (raising, as
`Except.error`, on bytes that are no image — in particular PIL raises
`UnidentifiedImageError` on an empty byte stream), and `infer` is
`MODEL.predict` on the preprocessed batch, returning the batch of
probability vectors or raising. -/
structure PredictEnv where
  decode : List Nat → Except Unit Img
  infer : Tensor4 → Except Unit (List (List ℚ))

/-- A JSON response body: either an `error` object or the result object with
`grade`, `description` and `probabilities`. -/
inductive ResponseBody where
  | error (msg : String)
  | result (grade : Nat) (description : String) (probabilities : List ℚ)
  deriving DecidableEq

/-- What the handler returns for one request: HTTP status, JSON body, and
whether `MODEL.predict` was invoked during the request. -/
structure HandlerResult where
  status : Nat
  body : ResponseBody
  inferenceInvoked : Bool
  deriving DecidableEq

/-- The `/predict` route handler (app.py lines 125-171). Checks, in order:
`MODEL is None` (503), `file` field missing (400), empty filename (400);
then inside the `try` block decodes, preprocesses, runs the model, takes the
argmax, looks the index up in `KL_GRADE_MAP` with default `Unknown Grade`,
and returns the 200 JSON; any exception in the block (undecodable bytes, a
raising `MODEL.predict`, indexing an empty prediction batch, `np.argmax` of
an empty vector) is caught and becomes the generic 500 response. -/
def predict (model : Option KerasModel) (env : PredictEnv) (req : Request) : HandlerResult :=
  match model with
  | none => ⟨503, .error "Model not loaded or failed to initialize.", false⟩
  | some _ =>
    match req.file with
    | none => ⟨400, .error "No file part in the request", false⟩
    | some file =>
      if file.filename = "" then ⟨400, .error "No selected file", false⟩
      else
        match env.decode file.content with
        | .error _ => ⟨500, .error "An unexpected error occurred during prediction.", false⟩
        | .ok img =>
          match env.infer (preprocess img) with
          | .error _ => ⟨500, .error "An unexpected error occurred during prediction.", true⟩
          | .ok [] => ⟨500, .error "An unexpected error occurred during prediction.", true⟩
          | .ok ([] :: _) => ⟨500, .error "An unexpected error occurred during prediction.", true⟩
          | .ok ((p :: ps) :: _) =>
            ⟨200,
              .result (argmax (p :: ps))
                (Option.getD (KL_GRADE_MAP (argmax (p :: ps))) "Unknown Grade")
                (p :: ps),
              true⟩

/-- `Bool` test that the processing stage of a request raises: the bytes do
not decode, or the model raises, or the prediction batch is empty
(`predictions[0]` raises `IndexError`), or the first vector is empty
(`np.argmax` raises `ValueError`). -/
def processingRaises (env : PredictEnv) (content : List Nat) : Bool :=
  match env.decode content with
  | .error _ => true
  | .ok img =>
    match env.infer (preprocess img) with
    | .error _ => true
    | .ok [] => true
    | .ok (p0 :: _) => p0.isEmpty

/-! Helper lemmas about the preprocessing pipeline and argmax. -/

lemma toRGBPixel_length (p : Pixel) : (toRGBPixel p).length = 3 := by
  rcases p with _ | ⟨a, _ | ⟨b, _ | ⟨c, t⟩⟩⟩ <;> rfl

lemma convertRGB_pixel_length (img : Img) :
    ∀ row ∈ (convertRGB img).pixels, ∀ px ∈ row, px.length = 3 := by
  intro row hrow px hpx
  simp only [convertRGB, List.mem_map] at hrow
  obtain ⟨r, _, rfl⟩ := hrow
  simp only [List.mem_map] at hpx
  obtain ⟨q, _, rfl⟩ := hpx
  exact toRGBPixel_length q

lemma getD_mem_or_default {α : Type} (l : List α) (i : Nat) (d : α) :
    l.getD i d ∈ l ∨ l.getD i d = d := by
  by_cases h : i < l.length
  · left
    rw [List.getD_eq_getElem l d h]
    exact List.getElem_mem h
  · right
    exact List.getD_eq_default l d (Nat.le_of_not_lt h)

lemma le_listMax (x : ℚ) (t : List ℚ) :
    ∀ i < (x :: t).length, (x :: t).getD i 0 ≤ listMax (x :: t) := by
  induction t generalizing x with
  | nil =>
    intro i hi
    simp only [List.length_cons, List.length_nil] at hi
    have h0 : i = 0 := by omega
    subst h0
    simp [listMax]
  | cons y t2 ih =>
    intro i hi
    match i with
    | 0 => simp [listMax]
    | j + 1 =>
      have hj : j < (y :: t2).length := by
        simpa using Nat.lt_of_succ_lt_succ hi
      calc ((x :: y :: t2).getD (j + 1) 0) = (y :: t2).getD j 0 := rfl
        _ ≤ listMax (y :: t2) := ih y j hj
        _ ≤ listMax (x :: y :: t2) := by simp [listMax]

lemma listMax_le_getD_argmax (x : ℚ) (t : List ℚ) :
    listMax (x :: t) ≤ (x :: t).getD (argmax (x :: t)) 0 := by
  induction t generalizing x with
  | nil => simp [listMax, argmax]
  | cons y t2 ih =>
    by_cases h : listMax (y :: t2) ≤ x
    · simp [listMax, argmax, h]
    · have hlt : x < listMax (y :: t2) := lt_of_not_le h
      have : argmax (x :: y :: t2) = argmax (y :: t2) + 1 := by
        simp [argmax, h]
      rw [this]
      have hx : x ≤ (y :: t2).getD (argmax (y :: t2)) 0 :=
        le_trans (le_of_lt hlt) (ih y)
      calc listMax (x :: y :: t2) = max x (listMax (y :: t2)) := rfl
        _ ≤ (y :: t2).getD (argmax (y :: t2)) 0 := max_le hx (ih y)
        _ = (x :: y :: t2).getD (argmax (y :: t2) + 1) 0 := rfl

lemma argmax_lt_length (x : ℚ) (t : List ℚ) : argmax (x :: t) < (x :: t).length := by
  induction t generalizing x with
  | nil => simp [argmax]
  | cons y t2 ih =>
    by_cases h : listMax (y :: t2) ≤ x
    · simp [argmax, h]
    · have hy := ih y
      simp only [List.length_cons] at hy
      simp only [argmax, h, if_false, List.length_cons]
      omega

lemma isArgmaxIndex_argmax (x : ℚ) (t : List ℚ) :
    isArgmaxIndex (x :: t) (argmax (x :: t)) = true := by
  simp only [isArgmaxIndex, Bool.and_eq_true, decide_eq_true_eq, List.all_eq_true]
  refine ⟨argmax_lt_length x t, ?_⟩
  intro v hv
  obtain ⟨i, hi, rfl⟩ := List.mem_iff_getElem.mp hv
  have h1 : (x :: t)[i] = (x :: t).getD i 0 := (List.getD_eq_getElem (x :: t) 0 hi).symm
  rw [h1]
  exact le_trans (le_listMax x t i hi) (listMax_le_getD_argmax x t)

lemma KL_GRADE_MAP_none_of_out_of_range (k : Nat) (hk : 4 < k) : KL_GRADE_MAP k = none := by
  match k, hk with
  | n + 5, _ => rfl

lemma resizeImg_pixel_length (img : Img) (w h : Nat)
    (hp : ∀ row ∈ img.pixels, ∀ px ∈ row, px.length = 3) :
    ∀ row ∈ (resizeImg img w h).pixels, ∀ px ∈ row, px.length = 3 := by
  intro row hrow px hpx
  simp only [resizeImg, List.mem_map] at hrow
  obtain ⟨i, _, rfl⟩ := hrow
  simp only [List.mem_map] at hpx
  obtain ⟨j, _, rfl⟩ := hpx
  rcases getD_mem_or_default img.pixels (i * img.pixels.length / h) [] with hsrc | hsrc
  · rcases getD_mem_or_default (img.pixels.getD (i * img.pixels.length / h) [])
      (j * (img.pixels.getD (i * img.pixels.length / h) []).length / w) [0, 0, 0] with hq | hq
    · exact hp _ hsrc _ hq
    · rw [hq]; rfl
  · rw [hsrc]
    simp [List.getD]

/-! Theorems settling the claims. -/

/-- C5: for every decoded image of any source resolution, the preprocessing
pipeline of `predict` — force RGB, resize to 224 by 224, convert to an
array, insert the batch dimension — yields a tensor of exactly the
rectangular shape (1, 224, 224, 3), which is what `predict` passes to the
model. -/
theorem preprocess_tensor_shape (img : Img) :
    tensorHasShape (preprocess img) 1 224 224 3 = true := by
  have hpx := resizeImg_pixel_length (convertRGB img) 224 224 (convertRGB_pixel_length img)
  simp only [tensorHasShape, preprocess, expandDims, imgToArray, Bool.and_eq_true,
    List.all_eq_true, beq_iff_eq]
  refine ⟨rfl, ?_⟩
  intro b hb
  have hbt : b = (resizeImg (convertRGB img) 224 224).pixels := by
    simpa using hb
  subst hbt
  refine ⟨by simp [resizeImg], ?_⟩
  intro row hrow
  constructor
  · simp only [resizeImg, List.mem_map] at hrow
    obtain ⟨i, _, rfl⟩ := hrow
    simp
  · intro px hpxm
    exact hpx _ hrow _ hpxm

/-- C10: when the model artifact is unloaded (`MODEL is None`), every POST
/predict request receives the 503 service-unavailable response with no
inference invoked, whatever its body: the availability check precedes input
validation, so even a request with no file field, or one with an empty
filename, receives 503 and never 400. -/
theorem predict_unloaded_model_always_503 (env : PredictEnv) (req : Request) :
    predict none env req =
      ⟨503, .error "Model not loaded or failed to initialize.", false⟩ := rfl

/-- C8: with a loaded model, a POST /predict request whose multipart body
has no `file` field receives the 400 client-error response and the model
artifact is never invoked. -/
theorem predict_missing_file_field_400 (m : KerasModel) (env : PredictEnv) :
    predict (some m) env ⟨none⟩ =
      ⟨400, .error "No file part in the request", false⟩ := rfl

/-- C9: when the weights file already exists locally,
`download_weights_if_not_present` returns at once: no network request is
issued, the filesystem and environment are left unchanged, and no error is
raised, so a restart with the file present is idempotent. -/
theorem download_skips_when_file_present (c : List Chunk) (url : Option String) (net : Network) :
    download_weights_if_not_present ⟨some c, url⟩ net = ⟨⟨some c, url⟩, false, none⟩ := rfl

/-- C3: when the weights file is absent and `WEIGHTS_DOWNLOAD_URL` is unset,
`download_weights_if_not_present` raises `EnvironmentError` whatever the
network would have answered, the startup sequence therefore never loads a
model, and every subsequent /predict request receives 503 with no inference
invoked: the process serves no inference traffic. -/
theorem startup_no_file_no_url_rejects_all (net : Network) (lb : LoadBehavior)
    (env : PredictEnv) (req : Request) :
    (download_weights_if_not_present ⟨none, none⟩ net).outcome = some .envError ∧
    (startup ⟨none, none⟩ net lb).model = none ∧
    predict (startup ⟨none, none⟩ net lb).model env req =
      ⟨503, .error "Model not loaded or failed to initialize.", false⟩ :=
  ⟨rfl, rfl, rfl⟩

/-- C6: for every probability vector the model produces, the handler returns
status 200 with the index of the maximum entry as the predicted grade, the
description looked up in `KL_GRADE_MAP` with the sentinel `Unknown Grade`
for any index outside 0..4, and the full probability vector. -/
theorem predict_result_argmax_grade (m : KerasModel) (env : PredictEnv) (f : UploadedFile)
    (img : Img) (p : ℚ) (ps : List ℚ) (rest : List (List ℚ))
    (hn : f.filename ≠ "")
    (hd : env.decode f.content = .ok img)
    (hi : env.infer (preprocess img) = .ok ((p :: ps) :: rest)) :
    predict (some m) env ⟨some f⟩ =
      ⟨200,
        .result (argmax (p :: ps))
          (Option.getD (KL_GRADE_MAP (argmax (p :: ps))) "Unknown Grade") (p :: ps),
        true⟩ ∧
    isArgmaxIndex (p :: ps) (argmax (p :: ps)) = true ∧
    (4 < argmax (p :: ps) →
      Option.getD (KL_GRADE_MAP (argmax (p :: ps))) "Unknown Grade" = "Unknown Grade") := by
  refine ⟨?_, isArgmaxIndex_argmax p ps, ?_⟩
  · simp [predict, hn, hd, hi]
  · intro hgt
    rw [KL_GRADE_MAP_none_of_out_of_range _ hgt]
    rfl

/-- Concrete request environment for the C6 witness: the decoder accepts any
byte stream as a one-pixel grayscale image, and the model answers one fixed
probability vector with its maximum at index 1. -/
def c6Env : PredictEnv :=
  ⟨fun _ => .ok ⟨[[[7]]]⟩, fun _ => .ok [[0, 1, 0, 0, 0]]⟩

/-- Witness for C6 at a concrete request: uploading a file named knee.png
whose bytes decode and whose inference answers (0, 1, 0, 0, 0) yields the
200 response with grade 1 and its `KL_GRADE_MAP` description. -/
theorem predict_result_argmax_grade_witness :
    ("knee.png" : String) ≠ "" ∧
    predict (some ⟨true⟩) c6Env ⟨some ⟨"knee.png", [1, 2]⟩⟩ =
      ⟨200, .result 1 "Grade 1: Doubtful (Possible Osteophyte Lip)" [0, 1, 0, 0, 0], true⟩ :=
  ⟨by decide, by
    have h := predict_result_argmax_grade ⟨true⟩ c6Env ⟨"knee.png", [1, 2]⟩ ⟨[[[7]]]⟩
      0 [1, 0, 0, 0] [] (by decide) rfl rfl
    rw [h.1]
    decide⟩

/-- C7: for every request that reaches the processing stage (model loaded,
file field present, filename nonempty), `predict` is a total function that
always answers a response: when the processing stage raises (undecodable
bytes, a raising model call, or an empty prediction batch or vector), the
exception is caught and converted into the 500 response with the generic
message, and otherwise the request completes with status 200; no exception
escapes the handler. -/
theorem predict_processing_error_500 (m : KerasModel) (env : PredictEnv) (f : UploadedFile)
    (hn : f.filename ≠ "") :
    (processingRaises env f.content = true →
      (predict (some m) env ⟨some f⟩).status = 500 ∧
      (predict (some m) env ⟨some f⟩).body =
        .error "An unexpected error occurred during prediction.") ∧
    (processingRaises env f.content = false →
      (predict (some m) env ⟨some f⟩).status = 200) := by
  rcases hdec : env.decode f.content with e | img
  · simp [predict, processingRaises, hn, hdec]
  · rcases hinf : env.infer (preprocess img) with e | preds
    · simp [predict, processingRaises, hn, hdec, hinf]
    · rcases preds with _ | ⟨p0, rest⟩
      · simp [predict, processingRaises, hn, hdec, hinf]
      · rcases p0 with _ | ⟨p, ps⟩
        · simp [predict, processingRaises, hn, hdec, hinf]
        · simp [predict, processingRaises, hn, hdec, hinf]

/-- Concrete request environment for the C7 witness: decoding always
raises. -/
def c7Env : PredictEnv :=
  ⟨fun _ => .error (), fun _ => .error ()⟩

/-- Witness for C7 at a concrete request whose bytes do not decode: the
handler answers the generic 500 response. -/
theorem predict_processing_error_500_witness :
    ("blurry.jpg" : String) ≠ "" ∧
    processingRaises c7Env [3] = true ∧
    (predict (some ⟨true⟩) c7Env ⟨some ⟨"blurry.jpg", [3]⟩⟩).status = 500 ∧
    (predict (some ⟨true⟩) c7Env ⟨some ⟨"blurry.jpg", [3]⟩⟩).body =
      .error "An unexpected error occurred during prediction." :=
  ⟨by decide, rfl, (predict_processing_error_500 ⟨true⟩ c7Env ⟨"blurry.jpg", [3]⟩ (by decide)).1 rfl⟩

/-- Concrete request environment for the C1 failing input: the uploaded
bytes decode and the model call answers a probability vector. -/
def c1Env : PredictEnv :=
  ⟨fun _ => .ok ⟨[[[3]]]⟩, fun _ => .ok [[1, 0, 0, 0, 0]]⟩

/-- C1 is violated by the code: at the failing input where the weights file
is present, the architecture deserializes, but `MODEL.load_weights` raises,
`load_model_from_files` re-raises **after** line 56 has already assigned the
architecture-only model to the global `MODEL`, and the startup except block
(whose own comments at lines 110-113 say the app will exit and the exception
will propagate) merely does `pass`. The process keeps serving with a
weightless `MODEL`: a subsequent valid /predict request passes the
`MODEL is None` check, invokes inference, and answers 200, not the 503 the
claim requires. -/
theorem weights_load_failure_leaves_model_serving :
    load_model_from_files none ⟨true, false⟩ = ⟨some ⟨false⟩, some .weightsError⟩ ∧
    (startup ⟨some [[0]], some "u"⟩ ⟨[], none, true⟩ ⟨true, false⟩).model = some ⟨false⟩ ∧
    (predict (startup ⟨some [[0]], some "u"⟩ ⟨[], none, true⟩ ⟨true, false⟩).model c1Env
      ⟨some ⟨"knee.png", [9]⟩⟩).status = 200 ∧
    (predict (startup ⟨some [[0]], some "u"⟩ ⟨[], none, true⟩ ⟨true, false⟩).model c1Env
      ⟨some ⟨"knee.png", [9]⟩⟩).inferenceInvoked = true ∧
    (predict (startup ⟨some [[0]], some "u"⟩ ⟨[], none, true⟩ ⟨true, false⟩).model c1Env
      ⟨some ⟨"knee.png", [9]⟩⟩).status ≠ 503 :=
  ⟨rfl, rfl, by decide, by decide, by decide⟩

/-- Counterexample to C2 as stated: with no local file and a configured URL,
a transfer of two chunks that fails after the first leaves the file present
holding only the first chunk — not the full content — and the next startup's
existence check accepts it, skipping the download with no error. -/
theorem download_accepts_truncated_file :
    (download_weights_if_not_present ⟨none, some "u"⟩ ⟨[[1], [2]], some 1, true⟩).world.weightsFile =
      some [[1]] ∧
    ([[1]] : List Chunk) ≠ [[1], [2]] ∧
    download_weights_if_not_present ⟨some [[1]], some "u"⟩ ⟨[[1], [2]], none, true⟩ =
      ⟨⟨some [[1]], some "u"⟩, false, none⟩ :=
  ⟨rfl, by decide, rfl⟩

/-- C2 amended: if the streamed transfer fails partway (after `k` of the
chunks, `k` short of all of them), the download raises `RequestException`
and the startup sequence fails — no model is loaded on this startup — but
the chunks already received remain written to the weights file, which is
therefore an incomplete copy of the remote content, and a subsequent
startup's local-file existence check accepts it and skips the download
entirely. -/
theorem download_failure_persists_truncated_file (url : String) (chunks : List Chunk) (k : Nat)
    (lb : LoadBehavior) (hk : k < chunks.length) :
    (download_weights_if_not_present ⟨none, some url⟩ ⟨chunks, some k, true⟩).outcome =
      some .requestError ∧
    (startup ⟨none, some url⟩ ⟨chunks, some k, true⟩ lb).model = none ∧
    (download_weights_if_not_present ⟨none, some url⟩ ⟨chunks, some k, true⟩).world.weightsFile =
      some (chunks.take k) ∧
    chunks.take k ≠ chunks ∧
    download_weights_if_not_present
        (download_weights_if_not_present ⟨none, some url⟩ ⟨chunks, some k, true⟩).world
        ⟨chunks, some k, true⟩ =
      ⟨(download_weights_if_not_present ⟨none, some url⟩ ⟨chunks, some k, true⟩).world,
        false, none⟩ := by
  refine ⟨rfl, rfl, rfl, ?_, rfl⟩
  intro h
  have hlen := congrArg List.length h
  rw [List.length_take] at hlen
  omega

/-- Witness for C2's amended claim at a concrete transfer of two chunks
failing after the first. -/
theorem download_failure_persists_truncated_file_witness :
    (1 : Nat) < ([[1], [2]] : List Chunk).length ∧
    (download_weights_if_not_present ⟨none, some "w"⟩ ⟨[[1], [2]], some 1, true⟩).outcome =
      some .requestError ∧
    (startup ⟨none, some "w"⟩ ⟨[[1], [2]], some 1, true⟩ ⟨true, true⟩).model = none ∧
    (download_weights_if_not_present ⟨none, some "w"⟩ ⟨[[1], [2]], some 1, true⟩).world.weightsFile =
      some (([[1], [2]] : List Chunk).take 1) ∧
    ([[1], [2]] : List Chunk).take 1 ≠ [[1], [2]] ∧
    download_weights_if_not_present
        (download_weights_if_not_present ⟨none, some "w"⟩ ⟨[[1], [2]], some 1, true⟩).world
        ⟨[[1], [2]], some 1, true⟩ =
      ⟨(download_weights_if_not_present ⟨none, some "w"⟩ ⟨[[1], [2]], some 1, true⟩).world,
        false, none⟩ :=
  ⟨by decide,
    download_failure_persists_truncated_file "w" [[1], [2]] 1 ⟨true, true⟩ (by decide)⟩

/-- Concrete request environment for C4: the decoder, like PIL, raises on an
empty byte stream and accepts a nonempty one. -/
def c4Env : PredictEnv :=
  ⟨fun bs => if bs.isEmpty then .error () else .ok ⟨[[[2]]]⟩, fun _ => .ok [[1, 0, 0, 0, 0]]⟩

/-- Counterexample to C4 as stated: a request whose file field has the
non-empty filename scan.png but zero-byte content is not rejected by the
validation checks (which only test field presence and empty filename); the
empty stream fails to decode inside the try block and the handler answers
the generic 500 server error, not a client-error response. -/
theorem predict_empty_content_returns_500 :
    (predict (some ⟨true⟩) c4Env ⟨some ⟨"scan.png", []⟩⟩).status = 500 ∧
    (predict (some ⟨true⟩) c4Env ⟨some ⟨"scan.png", []⟩⟩).status ≠ 400 ∧
    (predict (some ⟨true⟩) c4Env ⟨some ⟨"scan.png", []⟩⟩).body =
      .error "An unexpected error occurred during prediction." :=
  ⟨rfl, by decide, rfl⟩

/-- C4 amended: a request with a non-empty filename and empty content passes
both validation checks and reaches the processing stage, where the empty
byte stream fails to decode (as under PIL, which cannot identify an image in
zero bytes), so the handler returns the generic 500 server-error response —
not a 400 client error — and no inference is attempted. -/
theorem predict_empty_content_reaches_processing (m : KerasModel) (env : PredictEnv)
    (name : String) (hn : name ≠ "") (hd : env.decode [] = .error ()) :
    predict (some m) env ⟨some ⟨name, []⟩⟩ =
      ⟨500, .error "An unexpected error occurred during prediction.", false⟩ := by
  simp [predict, hn, hd]

/-- Witness for C4's amended claim at a concrete empty-content request. -/
theorem predict_empty_content_reaches_processing_witness :
    ("scan.png" : String) ≠ "" ∧
    c4Env.decode [] = .error () ∧
    predict (some ⟨false⟩) c4Env ⟨some ⟨"scan.png", []⟩⟩ =
      ⟨500, .error "An unexpected error occurred during prediction.", false⟩ :=
  ⟨by decide, rfl,
    predict_empty_content_reaches_processing ⟨false⟩ c4Env "scan.png" (by decide) rfl⟩

end ArthritisApp
